import Mathlib

/-!
Shallow embedding of the `tarrk` frontend client (`frontend/src/App.tsx`).

The embedding models the React component's state as an explicit record
(`ClientState`) and each event handler / callback of the component as a pure
state-transition function.  Network calls are modelled by returning the request
body that would be posted (`Option` — `none` means no request is issued) next
to the successor state; the asynchronous response, where it matters, is passed
in as an explicit outcome argument.  JavaScript `x ?? d` is `Option.getD`,
string truthiness is an emptiness test, `Array.prototype.slice(-n)` is
`takeLast n`, and the `>>> 0` unsigned-32-bit hash is arithmetic `% 2^32`.
-/

/-- `type MessageRole = 'user' | 'agent'` -/
inductive MessageRole where
  | user
  | agent
deriving DecidableEq

/-- `type RoleType = 'facilitator' | 'character'` -/
inductive RoleType where
  | facilitator
  | character
deriving DecidableEq

/-- `type ConversationMode = 'philosophy_debate' | 'devils_advocate' | 'consensus_lab'` -/
inductive ConversationMode where
  | philosophy_debate
  | devils_advocate
  | consensus_lab
deriving DecidableEq

/-- Status field of a `GenerationLog`: `'requesting' | 'completed' | 'failed'`. -/
inductive LogStatus where
  | requesting
  | completed
  | failed
deriving DecidableEq

/-- Status field of an `AccessResult`: `'completed' | 'failed'`. -/
inductive AccessStatus where
  | completed
  | failed
deriving DecidableEq

/-- `type ChatMessage` from App.tsx. -/
structure ChatMessage where
  role : MessageRole
  speaker_id : String
  content : String
  timestamp : String
deriving DecidableEq

/-- `type Agent` from App.tsx. -/
structure Agent where
  agent_id : String
  model : String
  display_name : String
  role_type : RoleType
  character_profile : String
deriving DecidableEq

/-- `type GenerationLog` from App.tsx.  `round_index` is a JS number used as a
counter; it is embedded as `Nat`. -/
structure GenerationLog where
  round_index : Nat
  model : String
  display_name : String
  act : String
  status : LogStatus
  detail : String
  timestamp : String
deriving DecidableEq

/-- `type AccessResult` from App.tsx. -/
structure AccessResult where
  status : AccessStatus
  displayName : String
deriving DecidableEq

/-- `type RoomPayload` from App.tsx.  Optional (`?`) fields are `Option`s;
`turn_interval_seconds` is a JS number embedded as `ℚ`. -/
structure RoomPayload where
  room_id : String
  subject : String
  conversation_mode : Option ConversationMode
  global_instruction : Option String
  turn_interval_seconds : Option ℚ
  agents : List Agent
deriving DecidableEq

/-- `type SnapshotPayload` from App.tsx.  Fields that the handler guards with
`??` / truthiness are `Option`s so that absent (`undefined`/`null`) values are
representable. -/
structure SnapshotPayload where
  room_id : String
  subject : String
  running : Bool
  paused : Option Bool
  current_act : Option String
  rounds_completed : Option Nat
  end_reason : Option String
  generation_logs : Option (List GenerationLog)
  conversation_mode : Option ConversationMode
  global_instruction : Option String
  turn_interval_seconds : Option ℚ
  agents : List Agent
  messages : Option (List ChatMessage)
deriving DecidableEq

/-- The inline payload type of the `room_state` branch of `socket.onmessage`. -/
structure RoomStatePayload where
  running : Bool
  paused : Option Bool
  current_act : Option String
  rounds_completed : Option Nat
  end_reason : Option String
deriving DecidableEq

/-- `type SocketEvent` from App.tsx, with the payload already narrowed the way
each branch of `socket.onmessage` casts it. -/
inductive SocketEvent where
  | room_snapshot (payload : SnapshotPayload)
  | room_state (payload : RoomStatePayload)
  | message (payload : ChatMessage)
  | generation_log (payload : GenerationLog)
  | error (detail : Option String)
deriving DecidableEq

/-- `const MODEL_OPTIONS` from App.tsx. -/
def MODEL_OPTIONS : List String :=
  [ "openai/gpt-4o-mini"
  , "moonshotai/kimi-k2.5"
  , "deepseek/deepseek-v3.2"
  , "minimax/minimax-m2.1"
  , "arcee-ai/trinity-large-preview:free"
  , "z-ai/glm-4.7"
  , "google/gemini-3-flash-preview"
  , "anthropic/claude-sonnet-4.5"
  , "x-ai/grok-4.1-fast"
  , "meta-llama/llama-3.3-70b-instruct" ]

/-- `const END_REASON_LABEL: Record<string, string>` from App.tsx, embedded as
a partial map: indexing a JS record off its four keys yields `undefined`,
i.e. `none`. -/
def END_REASON_LABEL (key : String) : Option String :=
  if key = "max_rounds" then some "ラウンド上限に到達"
  else if key = "manual_stop" then some "手動停止"
  else if key = "user_concluded" then some "発展なしで終了"
  else if key = "failures" then some "連続エラー"
  else none

/-- `const SPEAKER_ACCENT_COLORS` from App.tsx. -/
def SPEAKER_ACCENT_COLORS : List String :=
  [ "#0f766e", "#1d4ed8", "#7c3aed", "#be185d"
  , "#b45309", "#9333ea", "#0369a1", "#4d7c0f" ]

/-- `const SUBJECT_MAX_LENGTH = 2000` -/
def SUBJECT_MAX_LENGTH : Nat := 2000

/-- `const GLOBAL_INSTRUCTION_MAX_LENGTH = 1200` -/
def GLOBAL_INSTRUCTION_MAX_LENGTH : Nat := 1200

/-- `const MODELS_MAX_COUNT = 12` -/
def MODELS_MAX_COUNT : Nat := 12

/-- The React state of the `App` component, one field per `useState` hook of
App.tsx (refs and derived `useMemo` values are not state). -/
structure ClientState where
  subject : String
  selectedModels : List String
  conversationMode : ConversationMode
  globalInstruction : String
  turnIntervalSeconds : ℚ
  room : Option RoomPayload
  messages : List ChatMessage
  generationLogs : List GenerationLog
  pinnedMessageKeys : List String
  userInput : String
  running : Bool
  paused : Bool
  currentAct : String
  roundsCompleted : Nat
  status : String
  activeRequestModel : Option String
  lastAccessResult : Option AccessResult
  sidebarCollapsed : Bool
deriving DecidableEq

/-- The initial value of every `useState` hook of the `App` component. -/
def initialClientState : ClientState where
  subject := ""
  selectedModels := MODEL_OPTIONS.take 3
  conversationMode := ConversationMode.philosophy_debate
  globalInstruction := ""
  turnIntervalSeconds := mkRat 1 2
  room := none
  messages := []
  generationLogs := []
  pinnedMessageKeys := []
  userInput := ""
  running := false
  paused := false
  currentAct := "導入"
  roundsCompleted := 0
  status := "お題を入れて部屋を作成してください。"
  activeRequestModel := none
  lastAccessResult := none
  sidebarCollapsed := false

/-- JavaScript string truthiness of a possibly-absent string:
`undefined`, `null` and the empty string are falsy. -/
def jsTruthyStr : Option String → Bool
  | none => false
  | some s => s != ""

/-- `String.prototype.trim()`: strip leading and trailing whitespace.
Implemented structurally over the character list so that it is fully
evaluable. -/
def jsTrim (s : String) : String :=
  String.mk (((s.data.dropWhile Char.isWhitespace).reverse.dropWhile
    Char.isWhitespace).reverse)

/-- `xs.slice(-n)` on a JS array: the suffix of the `n` most recent elements
(the whole array when it is shorter than `n`). -/
def takeLast {α : Type} (n : Nat) (xs : List α) : List α :=
  xs.drop (xs.length - n)

/-- The common shape `applyRoomPayload` reads from its
`RoomPayload | SnapshotPayload` argument. -/
structure RoomLike where
  room_id : String
  subject : String
  conversation_mode : Option ConversationMode
  global_instruction : Option String
  turn_interval_seconds : Option ℚ
  agents : List Agent

/-- Projection of a `SnapshotPayload` onto the fields `applyRoomPayload`
reads. -/
def SnapshotPayload.roomLike (p : SnapshotPayload) : RoomLike where
  room_id := p.room_id
  subject := p.subject
  conversation_mode := p.conversation_mode
  global_instruction := p.global_instruction
  turn_interval_seconds := p.turn_interval_seconds
  agents := p.agents

/-- `applyRoomPayload` from App.tsx: normalises mode / instruction / interval
with their defaults and stores the room object. -/
def applyRoomPayload (p : RoomLike) (s : ClientState) : ClientState :=
  let mode := p.conversation_mode.getD ConversationMode.philosophy_debate
  let interval := p.turn_interval_seconds.getD (mkRat 1 2)
  { s with
    conversationMode := mode
    globalInstruction := p.global_instruction.getD ""
    turnIntervalSeconds := interval
    room := some
      { room_id := p.room_id
      , subject := p.subject
      , conversation_mode := some mode
      , global_instruction := some (p.global_instruction.getD "")
      , turn_interval_seconds := some interval
      , agents := p.agents } }

/-- The `room_state` branch of `socket.onmessage` in `connectWebSocket`.
`if (payload.current_act)` and `payload.end_reason` are JS truthiness tests
(absent or empty strings are falsy); `typeof payload.rounds_completed ===
'number'` is presence of the numeric field. -/
def handleRoomState (p : RoomStatePayload) (s : ClientState) : ClientState :=
  let s1 := { s with running := p.running, paused := p.paused.getD false }
  let s2 :=
    match p.current_act with
    | some a => if a != "" then { s1 with currentAct := a } else s1
    | none => s1
  let s3 :=
    match p.rounds_completed with
    | some n => { s2 with roundsCompleted := n }
    | none => s2
  if p.running = false ∧ jsTruthyStr p.end_reason = true then
    let er := p.end_reason.getD ""
    { s3 with
      status := "会話終了: " ++ (END_REASON_LABEL er).getD er
      activeRequestModel := none }
  else s3

/-- `socket.onmessage` of `connectWebSocket` in App.tsx: dispatch on the
event type and apply the corresponding state updates. -/
def handleSocketEvent (e : SocketEvent) (s : ClientState) : ClientState :=
  match e with
  | SocketEvent.room_snapshot p =>
    let s1 := applyRoomPayload p.roomLike s
    { s1 with
      messages := p.messages.getD []
      generationLogs := p.generation_logs.getD []
      running := p.running
      paused := p.paused.getD false
      currentAct := p.current_act.getD "導入"
      roundsCompleted := p.rounds_completed.getD 0 }
  | SocketEvent.room_state p => handleRoomState p s
  | SocketEvent.message p => { s with messages := s.messages ++ [p] }
  | SocketEvent.generation_log p =>
    let s1 := { s with generationLogs := takeLast 120 (s.generationLogs ++ [p]) }
    match p.status with
    | LogStatus.requesting =>
      { s1 with
        status := "アクセス中: " ++ p.display_name ++ " (" ++ p.act ++ ")"
        activeRequestModel := some p.display_name }
    | LogStatus.failed =>
      { s1 with
        status := "呼び出し失敗: " ++ p.display_name
        activeRequestModel := none
        lastAccessResult := some { status := AccessStatus.failed, displayName := p.display_name } }
    | LogStatus.completed =>
      { s1 with
        activeRequestModel := none
        lastAccessResult := some { status := AccessStatus.completed, displayName := p.display_name } }
  | SocketEvent.error d => { s with status := d.getD "エラーが発生しました。" }

/-- Processing a whole incoming event sequence, oldest first. -/
def processEvents (evts : List SocketEvent) (s : ClientState) : ClientState :=
  evts.foldl (fun st e => handleSocketEvent e st) s

/-- `toggleModel` from App.tsx: the `setSelectedModels` updater removes an
already-selected model, refuses (setting only the status line) to add a new
one at the `MODELS_MAX_COUNT` cap, and otherwise appends the model. -/
def toggleModel (model : String) (s : ClientState) : ClientState :=
  if model ∈ s.selectedModels then
    { s with selectedModels := s.selectedModels.filter (fun item => item != model) }
  else if MODELS_MAX_COUNT ≤ s.selectedModels.length then
    { s with status := "参加モデルは最大12件です。" }
  else
    { s with selectedModels := s.selectedModels ++ [model] }

/-- The body sent by `createRoom` to `POST /api/room/create`. -/
structure CreateRoomBody where
  subject : String
  models : List String
  conversation_mode : ConversationMode
  global_instruction : String
  turn_interval_seconds : ℚ
deriving DecidableEq

/-- The synchronous (pre-`await`) phase of `createRoom` from App.tsx: the
validation chain.  The first component is the request body handed to `fetch`
(`none` when validation rejects and no request is issued); the second is the
component state after this phase. -/
def createRoom (s : ClientState) : Option CreateRoomBody × ClientState :=
  let cleanSubject := jsTrim s.subject
  if cleanSubject = "" then
    (none, { s with status := "議論したいお題を入力してください。" })
  else if SUBJECT_MAX_LENGTH < cleanSubject.length then
    (none, { s with status := "お題は2000文字以内で入力してください。" })
  else if s.selectedModels.length = 0 then
    (none, { s with status := "最低1モデルを選択してください。" })
  else if MODELS_MAX_COUNT < s.selectedModels.length then
    (none, { s with status := "参加モデルは最大12件です。" })
  else
    ( some
        { subject := cleanSubject
        , models := s.selectedModels
        , conversation_mode := s.conversationMode
        , global_instruction := jsTrim s.globalInstruction
        , turn_interval_seconds := s.turnIntervalSeconds }
    , s )

/-- The body sent to `POST /api/room/:id/config` (all three fields optional
in the TS payload type). -/
structure ConfigRequestBody where
  conversation_mode : Option ConversationMode
  global_instruction : Option String
  turn_interval_seconds : Option ℚ
deriving DecidableEq

/-- The request body `applyRoomConfig` from App.tsx hands to `fetch`:
`none` when no request is issued (no room, or over-long instruction).
`turn_interval_seconds` is always set; `conversation_mode` and
`global_instruction` are added only under `if (!running)`. -/
def applyRoomConfigRequest (s : ClientState) : Option ConfigRequestBody :=
  match s.room with
  | none => none
  | some _ =>
    let normalizedInstruction := jsTrim s.globalInstruction
    if GLOBAL_INSTRUCTION_MAX_LENGTH < normalizedInstruction.length then none
    else if s.running then
      some
        { conversation_mode := none
        , global_instruction := none
        , turn_interval_seconds := some s.turnIntervalSeconds }
    else
      some
        { conversation_mode := some s.conversationMode
        , global_instruction := some normalizedInstruction
        , turn_interval_seconds := some s.turnIntervalSeconds }

/-- The request body `applySpeed` from App.tsx hands to `fetch`: a bare
`{ turn_interval_seconds: next }`, sent whenever a room exists, with no
check of `running`. -/
def applySpeedRequest (s : ClientState) (next : ℚ) : Option ConfigRequestBody :=
  match s.room with
  | none => none
  | some _ =>
    some
      { conversation_mode := none
      , global_instruction := none
      , turn_interval_seconds := some next }

/-- Outcome of an HTTP request, as observed by the `try`/`catch` around
`requestJson`: success, or a thrown error rendered as a string. -/
inductive RequestOutcome where
  | ok
  | thrown (message : String)
deriving DecidableEq

/-- `submitUserMessage` from App.tsx: no request without a room or when the
input trims to empty; otherwise the trimmed content is posted and, on
success, the input is cleared (on error the status line reports it).
The first component is the posted content, `none` when no request is made. -/
def submitUserMessage (s : ClientState) (outcome : RequestOutcome) :
    Option String × ClientState :=
  match s.room with
  | none => (none, s)
  | some _ =>
    let content := jsTrim s.userInput
    if content = "" then (none, s)
    else
      match outcome with
      | RequestOutcome.ok => (some content, { s with userInput := "" })
      | RequestOutcome.thrown m =>
        (some content, { s with status := "投稿に失敗しました: " ++ m })

/-- `disabled={!running || paused}` on the pause button of the room view. -/
def pauseButtonDisabled (running paused : Bool) : Bool :=
  !running || paused

/-- `disabled={!running || !paused}` on the resume button of the room view. -/
def resumeButtonDisabled (running paused : Bool) : Bool :=
  !running || !paused

/-- One UTF-16 code unit sequence of a character, as JS `charCodeAt` walks a
string: basic-plane characters are one unit, the rest a surrogate pair. -/
def utf16Units (c : Char) : List Nat :=
  let n := c.toNat
  if n < 65536 then [n]
  else [55296 + (n - 65536) / 1024, 56320 + (n - 65536) % 1024]

/-- The UTF-16 code units of a whole string. -/
def stringUtf16 (s : String) : List Nat :=
  (s.data.map utf16Units).flatten

/-- The `hash = (hash * 31 + input.charCodeAt(index)) >>> 0` loop of
`speakerColor`: `>>> 0` reduces the JS number to an unsigned 32-bit value,
i.e. `% 2^32`. -/
def speakerHash (input : String) : Nat :=
  (stringUtf16 input).foldl (fun h c => (h * 31 + c) % 4294967296) 0

/-- `speakerColor` from App.tsx: index the accent palette by the hash modulo
the palette length (out-of-bounds JS indexing would yield `undefined`,
embedded as the `getD` default). -/
def speakerColor (input : String) : String :=
  SPEAKER_ACCENT_COLORS.getD (speakerHash input % SPEAKER_ACCENT_COLORS.length) ""

/-- JS `a || b` on strings: `b` when `a` is empty. -/
def jsOrStr (a b : String) : String :=
  if a = "" then b else a

/-- `Map.prototype.set` on an association list: overwrite the value of an
existing key, otherwise append the binding. -/
def mapSet (m : List (String × String)) (k v : String) : List (String × String) :=
  if m.any (fun kv => kv.1 == k) then
    m.map (fun kv => if kv.1 == k then (k, v) else kv)
  else m ++ [(k, v)]

/-- `Map.prototype.get` on an association list. -/
def mapGet (m : List (String × String)) (k : String) : Option String :=
  (m.find? (fun kv => kv.1 == k)).map (fun kv => kv.2)

/-- The `speakerAccentMap` `useMemo` of App.tsx: for each agent of the room,
hash `display_name || model || agent_id` once and register the accent under
the agent's id, display name and model. -/
def speakerAccentMap (agents : List Agent) : List (String × String) :=
  agents.foldl
    (fun accents a =>
      let accent := speakerColor (jsOrStr a.display_name (jsOrStr a.model a.agent_id))
      mapSet (mapSet (mapSet accents a.agent_id accent) a.display_name accent) a.model accent)
    []

/-- `resolveSpeakerAccent` from App.tsx: the two sentinel speakers get the
fixed neutral colour, everyone else the memoised accent or a fresh hash. -/
def resolveSpeakerAccent (agents : List Agent) (speakerId : String) : String :=
  if speakerId = "総括" ∨ speakerId = "お題カード" then "#475569"
  else (mapGet (speakerAccentMap agents) speakerId).getD (speakerColor speakerId)

/-- A socket event whose snapshot payload carries at most 120 generation-log
entries; non-snapshot events vacuously qualify.  The spec's Transcript Store
is "a bounded ring of generation-log entries (most recent N)" with N = 120,
so every snapshot the backend emits satisfies this. -/
def snapshotLogsBounded : SocketEvent → Bool
  | SocketEvent.room_snapshot p => decide ((p.generation_logs.getD []).length ≤ 120)
  | _ => true

/-- A concrete room object, as returned by `POST /api/room/create`. -/
def sampleRoom : RoomPayload where
  room_id := "room-1"
  subject := "お題"
  conversation_mode := none
  global_instruction := none
  turn_interval_seconds := none
  agents := []

/-- The initial component state once a room has been attached. -/
def sampleRoomState : ClientState :=
  { initialClientState with room := some sampleRoom }

/-! ### Helper lemmas -/

theorem takeLast_length_le {α : Type} (n : Nat) (xs : List α) :
    (takeLast n xs).length ≤ n := by
  simp only [takeLast, List.length_drop]
  omega

theorem handleRoomState_generationLogs (p : RoomStatePayload) (s : ClientState) :
    (handleRoomState p s).generationLogs = s.generationLogs := by
  obtain ⟨r, pp, ca, rc, er⟩ := p
  simp only [handleRoomState]
  cases ca <;> cases rc <;> dsimp <;> split_ifs <;> rfl

theorem handleSocketEvent_generation_log_logs (p : GenerationLog) (s : ClientState) :
    (handleSocketEvent (SocketEvent.generation_log p) s).generationLogs
      = takeLast 120 (s.generationLogs ++ [p]) := by
  cases hp : p.status <;> simp only [handleSocketEvent, hp]

theorem handleSocketEvent_log_cap (e : SocketEvent) (s : ClientState)
    (he : snapshotLogsBounded e = true)
    (hs : s.generationLogs.length ≤ 120) :
    (handleSocketEvent e s).generationLogs.length ≤ 120 := by
  cases e with
  | room_snapshot p =>
    simp only [snapshotLogsBounded, decide_eq_true_eq] at he
    simpa only [handleSocketEvent] using he
  | room_state p =>
    simpa only [handleSocketEvent, handleRoomState_generationLogs] using hs
  | message p => simpa only [handleSocketEvent] using hs
  | generation_log p =>
    rw [handleSocketEvent_generation_log_logs]
    exact takeLast_length_le 120 _
  | error d => simpa only [handleSocketEvent] using hs

theorem processEvents_log_cap (evts : List SocketEvent) :
    ∀ s : ClientState, (∀ e ∈ evts, snapshotLogsBounded e = true) →
      s.generationLogs.length ≤ 120 →
      (processEvents evts s).generationLogs.length ≤ 120 := by
  induction evts with
  | nil => intro s _ hs; exact hs
  | cons e rest ih =>
    intro s hb hs
    exact ih _ (fun x hx => hb x (List.mem_cons_of_mem e hx))
      (handleSocketEvent_log_cap e s (hb e (List.mem_cons_self e rest)) hs)

/-! ### Claim theorems -/

/-- C1: Processing a `generation_log` socket event appends the new entry to
the generation-log list and truncates it to its most recent 120 entries
(`[...prev, payload].slice(-120)`), so along any incoming event sequence from
the initial state — snapshots carrying at most 120 entries, as the spec's
bounded server-side log guarantees — the list never exceeds 120 entries;
processing a `message` event appends the received message and never truncates
the transcript. -/
theorem generation_log_cap_and_transcript_unbounded :
    (∀ evts : List SocketEvent, (∀ e ∈ evts, snapshotLogsBounded e = true) →
      (processEvents evts initialClientState).generationLogs.length ≤ 120) ∧
    (∀ (s : ClientState) (p : GenerationLog),
      (handleSocketEvent (SocketEvent.generation_log p) s).generationLogs
        = takeLast 120 (s.generationLogs ++ [p])) ∧
    (∀ (s : ClientState) (p : ChatMessage),
      (handleSocketEvent (SocketEvent.message p) s).messages = s.messages ++ [p] ∧
      (handleSocketEvent (SocketEvent.message p) s).messages.length
        = s.messages.length + 1) := by
  refine ⟨?_, ?_, ?_⟩
  · intro evts hb
    exact processEvents_log_cap evts initialClientState hb (by simp [initialClientState])
  · intro s p
    exact handleSocketEvent_generation_log_logs p s
  · intro s p
    exact ⟨rfl, by simp [handleSocketEvent]⟩

/-- Witness for C1 at a concrete two-event sequence. -/
theorem generation_log_cap_witness :
    (processEvents
      [ SocketEvent.message
          { role := MessageRole.user, speaker_id := "u1", content := "hi", timestamp := "t1" }
      , SocketEvent.generation_log
          { round_index := 0, model := "m", display_name := "d", act := "導入"
          , status := LogStatus.completed, detail := "", timestamp := "t2" } ]
      initialClientState).generationLogs.length ≤ 120 :=
  generation_log_cap_and_transcript_unbounded.1 _ (by decide)

/-- C3: Processing a `message` socket event is exactly an append of the
received chat message: the whole successor state equals the old state with
`messages := messages ++ [payload]`, every previously stored message keeps
its position (the old transcript is a prefix), and the generation-log list,
room, running/paused flags, current act and round counter are untouched. -/
theorem message_event_append_frame :
    ∀ (s : ClientState) (p : ChatMessage),
      handleSocketEvent (SocketEvent.message p) s
        = { s with messages := s.messages ++ [p] } ∧
      (handleSocketEvent (SocketEvent.message p) s).messages.take s.messages.length
        = s.messages ∧
      (handleSocketEvent (SocketEvent.message p) s).generationLogs = s.generationLogs ∧
      (handleSocketEvent (SocketEvent.message p) s).room = s.room ∧
      (handleSocketEvent (SocketEvent.message p) s).running = s.running ∧
      (handleSocketEvent (SocketEvent.message p) s).paused = s.paused ∧
      (handleSocketEvent (SocketEvent.message p) s).currentAct = s.currentAct ∧
      (handleSocketEvent (SocketEvent.message p) s).roundsCompleted = s.roundsCompleted := by
  intro s p
  exact ⟨rfl, List.take_left s.messages [p], rfl, rfl, rfl, rfl, rfl, rfl⟩

/-- C7: In the room view, `disabled={!running || paused}` on the pause button
and `disabled={!running || !paused}` on the resume button mean the pause
control is enabled exactly when running and not paused, and the resume
control exactly when running and paused, so no-op pauses/resumes cannot be
issued through the controls. -/
theorem pause_resume_enablement :
    ∀ running paused : Bool,
      (pauseButtonDisabled running paused = false ↔ running = true ∧ paused = false) ∧
      (resumeButtonDisabled running paused = false ↔ running = true ∧ paused = true) := by
  decide

/-- C2: `createRoom` with a subject that trims to empty, an empty model
selection, or more than `MODELS_MAX_COUNT` selected models issues no network
request; the successor state differs from the old one at most in the status
line, which carries one of the validation messages — room, message list and
generation-log list in particular are unchanged. -/
theorem createRoom_validation_no_request :
    ∀ s : ClientState,
      (jsTrim s.subject = "" ∨ s.selectedModels = [] ∨
        MODELS_MAX_COUNT < s.selectedModels.length) →
      (createRoom s).1 = none ∧
      (createRoom s).2 = { s with status := (createRoom s).2.status } ∧
      (createRoom s).2.room = s.room ∧
      (createRoom s).2.messages = s.messages ∧
      (createRoom s).2.generationLogs = s.generationLogs ∧
      (createRoom s).2.status ∈
        [ "議論したいお題を入力してください。"
        , "お題は2000文字以内で入力してください。"
        , "最低1モデルを選択してください。"
        , "参加モデルは最大12件です。" ] := by
  intro s h
  simp only [createRoom]
  split_ifs with h1 h2 h3 h4
  · exact ⟨rfl, rfl, rfl, rfl, rfl, by simp⟩
  · exact ⟨rfl, rfl, rfl, rfl, rfl, by simp⟩
  · exact ⟨rfl, rfl, rfl, rfl, rfl, by simp⟩
  · exact ⟨rfl, rfl, rfl, rfl, rfl, by simp⟩
  · rcases h with h | h | h
    · exact absurd h h1
    · exact absurd (by simp [h]) h3
    · exact absurd h h4

/-- Witness for C2 at the initial state, whose subject trims to empty. -/
theorem createRoom_validation_no_request_witness :
    (createRoom initialClientState).1 = none ∧
    (createRoom initialClientState).2
      = { initialClientState with status := (createRoom initialClientState).2.status } ∧
    (createRoom initialClientState).2.room = initialClientState.room ∧
    (createRoom initialClientState).2.messages = initialClientState.messages ∧
    (createRoom initialClientState).2.generationLogs = initialClientState.generationLogs ∧
    (createRoom initialClientState).2.status ∈
      [ "議論したいお題を入力してください。"
      , "お題は2000文字以内で入力してください。"
      , "最低1モデルを選択してください。"
      , "参加モデルは最大12件です。" ] :=
  createRoom_validation_no_request initialClientState (Or.inl (by decide))

/-- C4: whenever `applyRoomConfig` issues its request, the body always
carries `turn_interval_seconds`, and it carries `conversation_mode` and
`global_instruction` exactly when the room is not running; `applySpeed`
requests carry only `turn_interval_seconds`, with no running-state check. -/
theorem config_payload_running_gate :
    (∀ (s : ClientState) (body : ConfigRequestBody),
      applyRoomConfigRequest s = some body →
      body.turn_interval_seconds = some s.turnIntervalSeconds ∧
      (body.conversation_mode.isSome = true ↔ s.running = false) ∧
      (body.global_instruction.isSome = true ↔ s.running = false)) ∧
    (∀ (s : ClientState) (next : ℚ) (body : ConfigRequestBody),
      applySpeedRequest s next = some body →
      body.turn_interval_seconds = some next ∧
      body.conversation_mode = none ∧
      body.global_instruction = none) := by
  constructor
  · intro s body h
    cases hroom : s.room with
    | none => simp [applyRoomConfigRequest, hroom] at h
    | some r =>
      simp only [applyRoomConfigRequest, hroom] at h
      split_ifs at h with hlen hrun
      · injection h with h2
        subst h2
        simp [hrun]
      · injection h with h2
        subst h2
        simp [hrun]
  · intro s next body h
    cases hroom : s.room with
    | none => simp [applySpeedRequest, hroom] at h
    | some r =>
      simp only [applySpeedRequest, hroom] at h
      injection h with h2
      subst h2
      exact ⟨rfl, rfl, rfl⟩

/-- Witness for C4 at a concrete non-running state with a room attached. -/
theorem config_payload_running_gate_witness :
    (({ conversation_mode := some ConversationMode.philosophy_debate
      , global_instruction := some ""
      , turn_interval_seconds := some sampleRoomState.turnIntervalSeconds }
        : ConfigRequestBody).turn_interval_seconds
      = some sampleRoomState.turnIntervalSeconds ∧
    (({ conversation_mode := some ConversationMode.philosophy_debate
      , global_instruction := some ""
      , turn_interval_seconds := some sampleRoomState.turnIntervalSeconds }
        : ConfigRequestBody).conversation_mode.isSome = true
      ↔ sampleRoomState.running = false) ∧
    (({ conversation_mode := some ConversationMode.philosophy_debate
      , global_instruction := some ""
      , turn_interval_seconds := some sampleRoomState.turnIntervalSeconds }
        : ConfigRequestBody).global_instruction.isSome = true
      ↔ sampleRoomState.running = false)) ∧
    (({ conversation_mode := none
      , global_instruction := none
      , turn_interval_seconds := some (mkRat 1 5) } : ConfigRequestBody).turn_interval_seconds
        = some (mkRat 1 5) ∧
     ({ conversation_mode := none
      , global_instruction := none
      , turn_interval_seconds := some (mkRat 1 5) } : ConfigRequestBody).conversation_mode = none ∧
     ({ conversation_mode := none
      , global_instruction := none
      , turn_interval_seconds := some (mkRat 1 5) } : ConfigRequestBody).global_instruction = none) :=
  ⟨config_payload_running_gate.1 sampleRoomState _ (by decide),
   config_payload_running_gate.2 sampleRoomState (mkRat 1 5) _ (by decide)⟩

/-- C5: `submitUserMessage` posts the trimmed input whenever a room exists
and the input trims to non-empty — independently of the running and paused
flags — and otherwise issues no request and leaves the state (in particular
the input) unchanged. -/
theorem user_message_post_condition :
    ∀ (s : ClientState) (outcome : RequestOutcome),
      (s.room.isSome = true → jsTrim s.userInput ≠ "" →
        (submitUserMessage s outcome).1 = some (jsTrim s.userInput)) ∧
      (∀ r p : Bool,
        (submitUserMessage { s with running := r, paused := p } outcome).1
          = (submitUserMessage s outcome).1) ∧
      ((s.room = none ∨ jsTrim s.userInput = "") →
        submitUserMessage s outcome = (none, s)) := by
  intro s outcome
  refine ⟨?_, ?_, ?_⟩
  · intro hr hc
    cases hroom : s.room with
    | none => simp [hroom] at hr
    | some r =>
      simp only [submitUserMessage, hroom]
      rw [if_neg hc]
      cases outcome <;> rfl
  · intro r p
    cases hroom : s.room with
    | none => simp [submitUserMessage, hroom]
    | some r0 =>
      simp only [submitUserMessage, hroom]
      split_ifs <;> cases outcome <;> rfl
  · intro h
    rcases h with h | h
    · simp [submitUserMessage, h]
    · cases hroom : s.room with
      | none => simp [submitUserMessage, hroom]
      | some r => simp [submitUserMessage, hroom, h]

/-- Witness for C5 at a concrete room state with whitespace-padded input. -/
theorem user_message_post_condition_witness :
    (submitUserMessage { sampleRoomState with userInput := " hi " }
        RequestOutcome.ok).1
      = some (jsTrim ({ sampleRoomState with userInput := " hi " } : ClientState).userInput) :=
  (user_message_post_condition { sampleRoomState with userInput := " hi " }
      RequestOutcome.ok).1 (by decide) (by decide)

/-- C6: `END_REASON_LABEL` is defined on exactly the four end reasons
`max_rounds`, `manual_stop`, `user_concluded`, `failures`, with four pairwise
distinct labels, and a `room_state` event sets the terminal conversation-ended
status (clearing the active-request marker) exactly when its payload has
`running = false` and a truthy (non-empty, present) `end_reason`. -/
theorem end_reason_enumeration_and_terminal_status :
    (∀ r : String, (END_REASON_LABEL r).isSome = true ↔
      (r = "max_rounds" ∨ r = "manual_stop" ∨ r = "user_concluded" ∨ r = "failures")) ∧
    (["max_rounds", "manual_stop", "user_concluded", "failures"].filterMap
        END_REASON_LABEL).Nodup ∧
    (["max_rounds", "manual_stop", "user_concluded", "failures"].filterMap
        END_REASON_LABEL).length = 4 ∧
    (∀ (s : ClientState) (p : RoomStatePayload),
      ((p.running = false ∧ jsTruthyStr p.end_reason = true) →
        (handleSocketEvent (SocketEvent.room_state p) s).status
          = "会話終了: " ++ (END_REASON_LABEL (p.end_reason.getD "")).getD
              (p.end_reason.getD "") ∧
        (handleSocketEvent (SocketEvent.room_state p) s).activeRequestModel = none) ∧
      (¬(p.running = false ∧ jsTruthyStr p.end_reason = true) →
        (handleSocketEvent (SocketEvent.room_state p) s).status = s.status)) := by
  refine ⟨?_, by decide, by decide, ?_⟩
  · intro r
    simp only [END_REASON_LABEL]
    split_ifs with h1 h2 h3 h4 <;> simp_all
  · intro s p
    obtain ⟨prun, ppau, pact, prc, per⟩ := p
    constructor
    · intro hcond
      simp only [handleSocketEvent, handleRoomState]
      cases pact <;> cases prc <;> dsimp <;> split_ifs <;> exact ⟨rfl, rfl⟩
    · intro hcond
      simp only [handleSocketEvent, handleRoomState]
      cases pact <;> cases prc <;> dsimp <;> split_ifs <;>
        first
          | rfl
          | exact absurd (by assumption) hcond

/-- Witness for C6 at a concrete terminal `room_state` payload. -/
theorem end_reason_terminal_status_witness :
    (handleSocketEvent
        (SocketEvent.room_state
          { running := false, paused := none, current_act := none
          , rounds_completed := none, end_reason := some "manual_stop" })
        initialClientState).status
      = "会話終了: " ++ (END_REASON_LABEL "manual_stop").getD "manual_stop" ∧
    (handleSocketEvent
        (SocketEvent.room_state
          { running := false, paused := none, current_act := none
          , rounds_completed := none, end_reason := some "manual_stop" })
        initialClientState).activeRequestModel = none :=
  (end_reason_enumeration_and_terminal_status.2.2.2 initialClientState
    { running := false, paused := none, current_act := none
    , rounds_completed := none, end_reason := some "manual_stop" }).1 (by decide)

theorem toggleModel_selectedModels (m : String) (s : ClientState) :
    (toggleModel m s).selectedModels =
      if m ∈ s.selectedModels then s.selectedModels.filter (fun item => item != m)
      else if MODELS_MAX_COUNT ≤ s.selectedModels.length then s.selectedModels
      else s.selectedModels ++ [m] := by
  simp only [toggleModel]
  split_ifs <;> rfl

theorem filter_ne_of_not_mem {l : List String} {m : String} (h : m ∉ l) :
    l.filter (fun item => item != m) = l := by
  rw [List.filter_eq_self]
  intro x hx
  simp only [bne_iff_ne, ne_eq]
  rintro rfl
  exact h hx

theorem filter_ne_length_lt {l : List String} {m : String} (h : m ∈ l) :
    (l.filter (fun item => item != m)).length < l.length :=
  List.length_filter_lt_length_iff_exists.mpr ⟨m, h, by simp⟩

/-- C8: starting from any duplicate-free selection of at most
`MODELS_MAX_COUNT` models, toggling the same model twice yields a selection
with exactly the same members (remove/re-append, append/remove, or two
refusals at the cap). -/
theorem toggleModel_twice_preserves_selection_set :
    ∀ (s : ClientState) (m : String),
      s.selectedModels.Nodup → s.selectedModels.length ≤ MODELS_MAX_COUNT →
      ∀ x : String,
        x ∈ (toggleModel m (toggleModel m s)).selectedModels ↔
          x ∈ s.selectedModels := by
  intro s m hnd hlen x
  by_cases hm : m ∈ s.selectedModels
  · have h1 : (toggleModel m s).selectedModels
        = s.selectedModels.filter (fun item => item != m) := by
      rw [toggleModel_selectedModels, if_pos hm]
    have hmem1 : m ∉ (toggleModel m s).selectedModels := by
      rw [h1]
      simp [List.mem_filter]
    have hlt : (toggleModel m s).selectedModels.length < MODELS_MAX_COUNT := by
      rw [h1]
      exact lt_of_lt_of_le (filter_ne_length_lt hm) hlen
    have h2 : (toggleModel m (toggleModel m s)).selectedModels
        = (toggleModel m s).selectedModels ++ [m] := by
      rw [toggleModel_selectedModels, if_neg hmem1, if_neg (not_le.mpr hlt)]
    rw [h2, h1]
    simp only [List.mem_append, List.mem_filter, bne_iff_ne, ne_eq,
      List.mem_singleton]
    constructor
    · rintro (⟨hx, _⟩ | rfl)
      · exact hx
      · exact hm
    · intro hx
      by_cases hxm : x = m
      · exact Or.inr hxm
      · exact Or.inl ⟨hx, by simpa using hxm⟩
  · by_cases hcap : MODELS_MAX_COUNT ≤ s.selectedModels.length
    · have h1 : (toggleModel m s).selectedModels = s.selectedModels := by
        rw [toggleModel_selectedModels, if_neg hm, if_pos hcap]
      have h2 : (toggleModel m (toggleModel m s)).selectedModels
          = s.selectedModels := by
        rw [toggleModel_selectedModels, h1, if_neg hm, if_pos hcap]
      rw [h2]
    · have h1 : (toggleModel m s).selectedModels = s.selectedModels ++ [m] := by
        rw [toggleModel_selectedModels, if_neg hm, if_neg hcap]
      have hmem1 : m ∈ (toggleModel m s).selectedModels := by
        rw [h1]
        simp
      have h2 : (toggleModel m (toggleModel m s)).selectedModels
          = ((s.selectedModels ++ [m]).filter (fun item => item != m)) := by
        rw [toggleModel_selectedModels, if_pos hmem1, h1]
      rw [h2, List.filter_append, filter_ne_of_not_mem hm]
      simp

/-- Witness for C8: toggling a preset model twice from the initial state. -/
theorem toggleModel_twice_witness :
    ("moonshotai/kimi-k2.5"
        ∈ (toggleModel "moonshotai/kimi-k2.5"
            (toggleModel "moonshotai/kimi-k2.5" initialClientState)).selectedModels
      ↔ "moonshotai/kimi-k2.5" ∈ initialClientState.selectedModels) :=
  toggleModel_twice_preserves_selection_set initialClientState
    "moonshotai/kimi-k2.5" (by decide) (by decide) "moonshotai/kimi-k2.5"

theorem toggleModel_preserves_inv (m : String) (s : ClientState)
    (hnd : s.selectedModels.Nodup)
    (hlen : s.selectedModels.length ≤ MODELS_MAX_COUNT) :
    (toggleModel m s).selectedModels.Nodup ∧
      (toggleModel m s).selectedModels.length ≤ MODELS_MAX_COUNT := by
  rw [toggleModel_selectedModels]
  split_ifs with h1 h2
  · exact ⟨hnd.filter _, le_trans (List.length_filter_le _ _) hlen⟩
  · exact ⟨hnd, hlen⟩
  · refine ⟨?_, ?_⟩
    · exact List.Nodup.append hnd (List.nodup_singleton m)
        (List.disjoint_singleton.mpr h1)
    · simp only [List.length_append, List.length_singleton]
      omega
  
theorem selection_fold_inv (ops : List String) :
    ∀ s : ClientState,
      s.selectedModels.Nodup → s.selectedModels.length ≤ MODELS_MAX_COUNT →
      ((ops.foldl (fun st m => toggleModel m st) s).selectedModels.Nodup ∧
       (ops.foldl (fun st m =>
          toggleModel m st) s).selectedModels.length ≤ MODELS_MAX_COUNT) := by
  induction ops with
  | nil => exact fun s h1 h2 => ⟨h1, h2⟩
  | cons m rest ih =>
    intro s h1 h2
    obtain ⟨h1', h2'⟩ := toggleModel_preserves_inv m s h1 h2
    exact ih _ h1' h2'

/-- C9: from the initial selection (the first three preset models), every
selection reachable through `toggleModel` is duplicate-free with at most
`MODELS_MAX_COUNT` entries; `toggleModel` refuses a new model at the cap and
otherwise either removes an existing entry or appends an absent model. -/
theorem selected_models_invariant :
    (∀ ops : List String,
      ((ops.foldl (fun st m => toggleModel m st)
          initialClientState).selectedModels.Nodup ∧
       (ops.foldl (fun st m => toggleModel m st)
          initialClientState).selectedModels.length ≤ MODELS_MAX_COUNT)) ∧
    (∀ (s : ClientState) (m : String),
      m ∉ s.selectedModels → MODELS_MAX_COUNT ≤ s.selectedModels.length →
      (toggleModel m s).selectedModels = s.selectedModels) ∧
    (∀ (s : ClientState) (m : String),
      m ∈ s.selectedModels →
      (toggleModel m s).selectedModels
        = s.selectedModels.filter (fun item => item != m)) ∧
    (∀ (s : ClientState) (m : String),
      m ∉ s.selectedModels → s.selectedModels.length < MODELS_MAX_COUNT →
      (toggleModel m s).selectedModels = s.selectedModels ++ [m]) := by
  refine ⟨?_, ?_, ?_, ?_⟩
  · intro ops
    exact selection_fold_inv ops initialClientState (by decide) (by decide)
  · intro s m h1 h2
    rw [toggleModel_selectedModels, if_neg h1, if_pos h2]
  · intro s m h1
    rw [toggleModel_selectedModels, if_pos h1]
  · intro s m h1 h2
    rw [toggleModel_selectedModels, if_neg h1, if_neg (not_le.mpr h2)]

/-- Witness for C9: a removal and an append from the initial selection. -/
theorem selected_models_invariant_witness :
    (toggleModel "openai/gpt-4o-mini" initialClientState).selectedModels
      = initialClientState.selectedModels.filter
          (fun item => item != "openai/gpt-4o-mini") ∧
    (toggleModel "z-ai/glm-4.7" initialClientState).selectedModels
      = initialClientState.selectedModels ++ ["z-ai/glm-4.7"] :=
  ⟨selected_models_invariant.2.2.1 initialClientState "openai/gpt-4o-mini"
      (by decide),
   selected_models_invariant.2.2.2 initialClientState "z-ai/glm-4.7"
      (by decide) (by decide)⟩

theorem speakerColor_mem (input : String) :
    speakerColor input ∈ SPEAKER_ACCENT_COLORS := by
  have hall : ∀ i, i < 8 →
      SPEAKER_ACCENT_COLORS.getD i "" ∈ SPEAKER_ACCENT_COLORS := by decide
  have h8 : SPEAKER_ACCENT_COLORS.length = 8 := rfl
  have h : speakerHash input % SPEAKER_ACCENT_COLORS.length
      < SPEAKER_ACCENT_COLORS.length := Nat.mod_lt _ (by decide)
  exact hall _ (h8 ▸ h)

theorem mapSet_values {P : String → Prop} {m : List (String × String)}
    {k v : String} (hm : ∀ kv ∈ m, P kv.2) (hv : P v) :
    ∀ kv ∈ mapSet m k v, P kv.2 := by
  intro kv hkv
  unfold mapSet at hkv
  split_ifs at hkv with hex
  · rcases List.mem_map.1 hkv with ⟨kv0, hkv0, heq⟩
    by_cases hk : (kv0.1 == k) = true
    · rw [if_pos hk] at heq
      rw [← heq]
      exact hv
    · rw [if_neg hk] at heq
      rw [← heq]
      exact hm kv0 hkv0
  · rcases List.mem_append.1 hkv with h | h
    · exact hm kv h
    · rw [List.mem_singleton] at h
      rw [h]
      exact hv

theorem speakerAccentMap_values_aux (agents : List Agent) :
    ∀ acc : List (String × String),
      (∀ kv ∈ acc, kv.2 ∈ SPEAKER_ACCENT_COLORS) →
      ∀ kv ∈ agents.foldl
          (fun accents a =>
            let accent :=
              speakerColor (jsOrStr a.display_name (jsOrStr a.model a.agent_id))
            mapSet (mapSet (mapSet accents a.agent_id accent) a.display_name accent)
              a.model accent) acc,
        kv.2 ∈ SPEAKER_ACCENT_COLORS := by
  induction agents with
  | nil => intro acc hacc; simpa using hacc
  | cons a rest ih =>
    intro acc hacc
    exact ih _
      (mapSet_values
        (mapSet_values (mapSet_values hacc (speakerColor_mem _))
          (speakerColor_mem _))
        (speakerColor_mem _))

theorem speakerAccentMap_values (agents : List Agent) :
    ∀ kv ∈ speakerAccentMap agents, kv.2 ∈ SPEAKER_ACCENT_COLORS :=
  speakerAccentMap_values_aux agents [] (by simp)

theorem mapGet_mem {m : List (String × String)} {k v : String}
    (h : mapGet m k = some v) : ∃ kv ∈ m, kv.2 = v := by
  unfold mapGet at h
  cases hf : m.find? (fun kv => kv.1 == k) with
  | none => rw [hf] at h; cases h
  | some kv =>
    rw [hf] at h
    injection h with h2
    exact ⟨kv, List.mem_of_find?_eq_some hf, h2⟩

theorem resolveSpeakerAccent_mem (agents : List Agent) (speakerId : String)
    (h : ¬(speakerId = "総括" ∨ speakerId = "お題カード")) :
    resolveSpeakerAccent agents speakerId ∈ SPEAKER_ACCENT_COLORS := by
  unfold resolveSpeakerAccent
  rw [if_neg h]
  cases hg : mapGet (speakerAccentMap agents) speakerId with
  | none =>
    exact speakerColor_mem speakerId
  | some v =>
    obtain ⟨kv, hkv, hv⟩ := mapGet_mem hg
    rw [show (some v).getD (speakerColor speakerId) = v from rfl, ← hv]
    exact speakerAccentMap_values agents kv hkv

/-- C10: `speakerColor` is total and always lands in the eight-colour accent
palette (its unsigned 32-bit hash is taken modulo the palette length, so the
index is always in bounds), and `resolveSpeakerAccent` returns the neutral
colour `#475569` exactly for the sentinel speakers `総括` and `お題カード` —
never for a hashed or memoised speaker, since that colour is outside the
palette. -/
theorem speaker_accent_palette_safety :
    (∀ input : String, speakerColor input ∈ SPEAKER_ACCENT_COLORS) ∧
    (∀ input : String,
      speakerHash input % SPEAKER_ACCENT_COLORS.length
        < SPEAKER_ACCENT_COLORS.length) ∧
    (∀ (agents : List Agent) (speakerId : String),
      (speakerId = "総括" ∨ speakerId = "お題カード") →
      resolveSpeakerAccent agents speakerId = "#475569") ∧
    (∀ (agents : List Agent) (speakerId : String),
      ¬(speakerId = "総括" ∨ speakerId = "お題カード") →
      resolveSpeakerAccent agents speakerId ≠ "#475569") := by
  refine ⟨speakerColor_mem, ?_, ?_, ?_⟩
  · intro input
    exact Nat.mod_lt _ (by decide)
  · intro agents speakerId h
    unfold resolveSpeakerAccent
    rw [if_pos h]
  · intro agents speakerId h heq
    have hmem := resolveSpeakerAccent_mem agents speakerId h
    rw [heq] at hmem
    exact absurd hmem (by decide)

/-- Witness for C10 at the two sentinels and a hashed speaker. -/
theorem speaker_accent_palette_safety_witness :
    resolveSpeakerAccent [] "総括" = "#475569" ∧
    resolveSpeakerAccent [] "お題カード" = "#475569" ∧
    resolveSpeakerAccent [] "alice" ≠ "#475569" :=
  ⟨speaker_accent_palette_safety.2.2.1 [] "総括" (Or.inl rfl),
   speaker_accent_palette_safety.2.2.1 [] "お題カード" (Or.inr rfl),
   speaker_accent_palette_safety.2.2.2 [] "alice" (by decide)⟩
